import Mathlib

/-!
Verification development for the bikeshare data explorer (`bikeshare.py`).

The program is an interactive command-line tool built on pandas.  This file
shallow-embeds its data model and operations:

* a pandas row becomes the structure `Row`, whose `month`, `weekday` and
  `startHour` fields stand for the derived columns computed at load time
  (the timestamp parsing itself, `pd.to_datetime` and the `dt` accessors,
  is outside the embedding: rows carry the already-derived values);
* a DataFrame becomes `DataFrame`: a list of rows plus presence flags for
  the optional `Gender` and `Birth Year` columns and for the dynamically
  added `Start-End Combination` column;
* Python's duck-typed "single string or list of strings" selector values
  become the tagged type `Selector`;
* fallible library calls (`dict[...]`, `pd.read_csv`, `Series.mode()[0]`,
  `months[i]`, `int(...)`) become `Except String` values whose error
  strings name the Python exception they stand for;
* the statistics functions take and return a `DataFrame`, mirroring the
  by-reference `df` argument, so that frame conditions are statable.
-/

/-- Python `str.title()` for ASCII text: the first letter of every
alphabetic run is upper-cased and the following letters are lower-cased;
other characters pass through and end the current run. -/
def titleAux : Bool → List Char → List Char
  | _, [] => []
  | prevAlpha, c :: cs =>
    let c2 := if c.isAlpha then (if prevAlpha then c.toLower else c.toUpper) else c
    c2 :: titleAux c.isAlpha cs

/-- Python `s.title()` (source uses it on weekday names and on the city label). -/
def pyTitle (s : String) : String := String.mk (titleAux false s.data)

/-- Python `str.lower()` for ASCII text: every letter lower-cased. -/
def pyLower (s : String) : String := String.mk (s.data.map Char.toLower)

/-- Python `str.strip()`: leading and trailing whitespace removed. -/
def pyStrip (s : String) : String :=
  String.mk (((s.data.dropWhile Char.isWhitespace).reverse.dropWhile Char.isWhitespace).reverse)

/-- Python `s.lower().strip()`, the normalisation applied to every prompt
input (bikeshare.py line 31). -/
def pyNorm (s : String) : String := pyStrip (pyLower s)

/-- Python `s.split(sep)` for a one-character separator: every occurrence
splits, empty pieces included. -/
def splitOnCharAux (sep : Char) : List Char → List (List Char)
  | [] => [[]]
  | c :: cs =>
    let r := splitOnCharAux sep cs
    if c = sep then [] :: r
    else
      match r with
      | [] => [[c]]
      | g :: gs => (c :: g) :: gs

/-- Python `s.split(',')` (bikeshare.py line 38). -/
def pySplitComma (s : String) : List String :=
  (splitOnCharAux ',' s.data).map String.mk

/-- The `months` tuple (bikeshare.py line 14). -/
def months : List String :=
  ["january", "february", "march", "april", "may", "june"]

/-- The `weekdays` tuple (bikeshare.py line 17). -/
def weekdays : List String :=
  ["sunday", "monday", "tuesday", "wednesday", "thursday", "friday", "saturday"]

/-- The `CITY_DATA` dictionary (bikeshare.py lines 7-11). -/
def CITY_DATA : List (String × String) :=
  [("chicago", "chicago.csv"),
   ("new york city", "new_york_city.csv"),
   ("washington", "washington.csv")]

/-- One trip record.  `month`, `weekday` and `startHour` are the columns
derived at load time (bikeshare.py lines 96-98); the remaining fields are
the source columns the statistics read. -/
structure Row where
  month : Nat
  weekday : String
  startHour : Nat
  startStation : String
  endStation : String
  tripDuration : Nat
  userType : String
  gender : String
  birthYear : Int
deriving DecidableEq

/-- A validated prompt value: Python returns either a single string or a
list of strings, inspected later with `isinstance(-, list)`. -/
inductive Selector where
  | one (v : String)
  | many (vs : List String)
deriving DecidableEq

/-- A working dataset: the rows plus the presence flags for the optional
columns and for the derived `Start-End Combination` column (absent until
`display_station_stats` adds it). -/
structure DataFrame where
  rows : List Row
  hasGender : Bool
  hasBirthYear : Bool
  startEndCombo : Option (List String) := none
deriving DecidableEq

/-- Outcome of one iteration of the `get_user_choice` loop body
(bikeshare.py lines 30-42). -/
inductive ParseResult where
  | exit
  | accept (s : Selector)
  | reject
deriving DecidableEq

/-- One iteration of the loop body of `get_user_choice` (bikeshare.py
lines 30-42): normalise the raw line, honour the `end` sentinel, then
either validate the single value or split on commas and validate every
token. -/
def get_user_choice_step (valid : List String) (raw : String) : ParseResult :=
  let u := pyNorm raw
  if u = "end" then .exit
  else if u.data.contains ',' = false then
    if u ∈ valid then .accept (.one u) else .reject
  else
    let choices := (pySplitComma u).map (fun i => pyLower (pyStrip i))
    if ∀ c ∈ choices, c ∈ valid then .accept (.many choices) else .reject

/-- The `while True` retry loop of `get_user_choice`, run against a finite
prefix of the input stream: the first non-rejected line decides the result,
`none` meaning the loop is still re-prompting after consuming every line. -/
def get_user_choice_run (valid : List String) : List String → Option ParseResult
  | [] => none
  | i :: rest =>
    match get_user_choice_step valid i with
    | .reject => get_user_choice_run valid rest
    | r => some r

/-- `CITY_DATA[city]` (bikeshare.py lines 90 and 92): a missing key raises
`KeyError`; the error string keeps the spec's name for this failure. -/
def city_path (city : String) : Except String String :=
  match CITY_DATA.lookup city with
  | some p => .ok p
  | none => .error ("SourceNotFoundError")

/-- `pd.read_csv(path)` against an abstract file system `fs`: an unreadable
path raises `FileNotFoundError`; the error string keeps the spec's name. -/
def read_csv (fs : String → Option (List Row)) (path : String) : Except String (List Row) :=
  match fs path with
  | some rows => .ok rows
  | none => .error ("SourceNotFoundError")

/-- The multi-city load `pd.concat([pd.read_csv(CITY_DATA[c]) for c in city])`
(bikeshare.py line 90): the comprehension evaluates left to right and the
first exception propagates. -/
def load_city_rows (fs : String → Option (List Row)) : List String → Except String (List Row)
  | [] => .ok []
  | c :: rest =>
    match city_path c with
    | .error e => .error e
    | .ok p =>
      match read_csv fs p with
      | .error e => .error e
      | .ok rows =>
        match load_city_rows fs rest with
        | .error e => .error e
        | .ok others => .ok (rows ++ others)

/-- The read step of `load_data` (bikeshare.py lines 89-92). -/
def load_rows (fs : String → Option (List Row)) : Selector → Except String (List Row)
  | .one c =>
    match city_path c with
    | .error e => .error e
    | .ok p => read_csv fs p
  | .many cs => load_city_rows fs cs

/-- `months.index(m) + 1`, the month number compared against the derived
`Month` column (bikeshare.py lines 102 and 104). -/
def monthNum (m : String) : Nat := months.indexOf m + 1

/-- The row predicate of one month sub-filter: `df['Month'] == months.index(m) + 1`. -/
def monthPred (m : String) (r : Row) : Bool := r.month == monthNum m

/-- The row predicate of one weekday sub-filter: `df['Weekday'] == d.title()`. -/
def dayPred (d : String) (r : Row) : Bool := r.weekday == pyTitle d

/-- The shared shape of both filter steps of `load_data` (lines 100-110):
a single value keeps the rows matching its predicate; a list concatenates
the per-value sub-filters with `pd.concat`. -/
def filterBySel (df : List Row) (p : String → Row → Bool) : Selector → List Row
  | .one v => df.filter (p v)
  | .many vs => ((vs.map (fun v => df.filter (p v))).flatten)

/-- The month filter step of `load_data` (bikeshare.py lines 101-104). -/
def filterByMonth (df : List Row) (s : Selector) : List Row :=
  filterBySel df monthPred s

/-- The weekday filter step of `load_data` (bikeshare.py lines 107-110). -/
def filterByDay (df : List Row) (s : Selector) : List Row :=
  filterBySel df dayPred s

/-- The whole filter step of `load_data`: month filter then weekday filter. -/
def filterData (df : List Row) (month day : Selector) : List Row :=
  filterByDay (filterByMonth df month) day

/-- A selector drawn from a canonical set, as the prompts guarantee: a
single member, or a non-empty list of distinct members. -/
@[reducible] def validSel (canon : List String) : Selector → Prop
  | .one v => v ∈ canon
  | .many vs => vs ≠ [] ∧ vs.Nodup ∧ ∀ v ∈ vs, v ∈ canon

/-- Whether a row matches a selector under a per-value predicate: the one
selected value matches, or any of the selected values does (a union). -/
def selPred (p : String → Row → Bool) : Selector → Row → Bool
  | .one v, r => p v r
  | .many vs, r => vs.any (fun v => p v r)

/-- Whether a row matches a month selector (any selected month, a union). -/
def monthMatch (s : Selector) : Row → Bool := selPred monthPred s

/-- Whether a row matches a weekday selector (any selected weekday, a union). -/
def dayMatch (s : Selector) : Row → Bool := selPred dayPred s

/-- `load_data` end to end: read the selected cities, then filter.  The
derivation of the `Month`/`Weekday`/`Start Hour` columns (lines 95-98) is
the identity here because rows already carry the derived values. -/
def load_data (fs : String → Option (List Row)) (city month day : Selector) :
    Except String (List Row) :=
  match load_rows fs city with
  | .error e => .error e
  | .ok rows => .ok (filterData rows month day)

/-- `pandas.Series.mode()` as a list: the distinct values of maximal
multiplicity.  (pandas additionally sorts the result; no claim depends on
the order among tied values, which the spec leaves implementation-defined.) -/
def modeCandidates [DecidableEq α] (xs : List α) : List α :=
  match xs.argmax (fun v => xs.count v) with
  | none => []
  | some m => xs.dedup.filter (fun v => xs.count v == xs.count m)

/-- `series.mode()[0]`: taking element 0 of the mode of an empty column
raises `IndexError` (the empty mode has no element 0). -/
def mode0 [DecidableEq α] (xs : List α) : Except String α :=
  match modeCandidates xs with
  | [] => .error ("IndexError")
  | a :: _ => .ok a

/-- Python list indexing `xs[i]` with its negative-index convention:
out-of-range access raises `IndexError`. -/
def pyListGet (xs : List α) (i : Int) : Except String α :=
  let j := if i < 0 then i + xs.length else i
  if h : 0 ≤ j ∧ j < (xs.length : Int) then .ok (xs.get ⟨j.toNat, by omega⟩)
  else .error ("IndexError")

/-- `display_time_stats` (bikeshare.py lines 118-137): the three computed
values (common month name title-cased, common weekday, common start hour),
or the first raised exception; the data frame is passed back unchanged
because the function never assigns to it. -/
def display_time_stats (df : DataFrame) :
    Except String (String × String × Nat) × DataFrame :=
  (match mode0 (df.rows.map (fun r => r.month)) with
   | .error e => .error e
   | .ok m =>
     match pyListGet months ((m : Int) - 1) with
     | .error e => .error e
     | .ok name =>
       match mode0 (df.rows.map (fun r => r.weekday)) with
       | .error e => .error e
       | .ok d =>
         match mode0 (df.rows.map (fun r => r.startHour)) with
         | .error e => .error e
         | .ok h => .ok (pyTitle name, d, h), df)

/-- The `Start-End Combination` values: `df['Start Station'] + ' - ' + df['End Station']`
(bikeshare.py line 155). -/
def comboColumn (rows : List Row) : List String :=
  rows.map (fun r => r.startStation ++ " - " ++ r.endStation)

/-- `display_station_stats` (bikeshare.py lines 140-160): the three common
values, or the first raised exception.  The returned data frame reflects
the one mutation in the program: the `Start-End Combination` column is
added at line 155, after the two station modes succeed and before the
combination mode is taken. -/
def display_station_stats (df : DataFrame) :
    Except String (String × String × String) × DataFrame :=
  match mode0 (df.rows.map (fun r => r.startStation)) with
  | .error e => (.error e, df)
  | .ok s1 =>
    match mode0 (df.rows.map (fun r => r.endStation)) with
    | .error e => (.error e, df)
    | .ok s2 =>
      let df2 : DataFrame := { df with startEndCombo := some (comboColumn df.rows) }
      match mode0 (comboColumn df.rows) with
      | .error e => (.error e, df2)
      | .ok c => (.ok (s1, s2, c), df2)

/-- The total-duration format string of `display_trip_duration_stats`
(bikeshare.py line 173), on the integer column sum: four integer floor
divisions and remainders. -/
def totalDurationStr (total : Nat) : String :=
  toString (total / 86400) ++ "d " ++ toString (total % 86400 / 3600) ++ "h " ++
    toString (total % 3600 / 60) ++ "m " ++ toString (total % 60) ++ "s"

/-- A rational given literally in lowest terms, so that its numerator and
denominator are definitionally transparent to the kernel (the library's
rational arithmetic is irreducible by design). -/
def ratLit (num : Int) (den : Nat) (h1 : den ≠ 0) (h2 : num.natAbs.Coprime den) : ℚ :=
  ⟨num, den, h1, h2⟩

/-- Decimal digits after the point of the non-negative fraction
`fnum / den` (with `0 ≤ fnum < den`), fuelled: repeatedly multiply by 10
and take the integer digit.  17 digits is past the precision a CPython
float prints for the finite decimal values arising here. -/
def fracDigits : Nat → Int → Int → String
  | 0, _, _ => ""
  | fuel + 1, fnum, den =>
    if fnum = 0 then ""
    else
      let d := (10 * fnum).fdiv den
      toString d.toNat ++ fracDigits fuel (10 * fnum - d * den) den

/-- CPython `str()` of a non-negative float of exact value `num / den`
(floats are modelled as the exact rationals they hold; the values in the
claims are exactly representable): integer part, a dot, and the fraction
digits, with a trailing `0` when the fraction is empty — a float always
prints a decimal point, e.g. `2.0`. -/
def pyFloatStrFrac (num den : Int) : String :=
  let i := num.fdiv den
  let frac := fracDigits 17 (num - i * den) den
  toString i.toNat ++ "." ++ (if frac = "" then "0" else frac)

/-- The mean-duration format string of `display_trip_duration_stats`
(bikeshare.py line 177): `mean // 60` is float floor division (the floor,
still rendered as a float) and `mean % 60` is the float remainder
`mean - 60 * (mean // 60)`, each rendered by CPython float `str`. -/
def meanDurationStr (mean : ℚ) : String :=
  let k : Int := mean.num.fdiv (60 * (mean.den : Int))
  pyFloatStrFrac k 1 ++ "m " ++
    pyFloatStrFrac (mean.num - 60 * k * (mean.den : Int)) (mean.den : Int) ++ "s"

/-- `display_trip_duration_stats` (bikeshare.py lines 163-181): the two
rendered strings; the data frame is passed back unchanged.  (On an empty
frame pandas yields a NaN mean and Python prints `nan` fields; that
rendering is not modelled, no claim touches it.) -/
def display_trip_duration_stats (df : DataFrame) : (String × String) × DataFrame :=
  let total : Nat := (df.rows.map (fun r => r.tripDuration)).sum
  let mean : ℚ := (total : ℚ) / (df.rows.length : ℚ)
  ((totalDurationStr total, meanDurationStr mean), df)

/-- `series.value_counts()` as the multiset of (value, multiplicity) pairs
in first-occurrence order.  (pandas sorts by descending count; the order is
presentational, consumed only by `to_string`, and no claim depends on it.) -/
def valueCounts [DecidableEq α] (xs : List α) : List (α × Nat) :=
  xs.dedup.map (fun v => (v, xs.count v))

/-- One printed item of `display_user_stats`; the unavailability messages
carry the exact rendered text so that "naming the selected city" is a
checkable property. -/
inductive UserMsg where
  | userTypeDist (counts : List (String × Nat))
  | genderDist (counts : List (String × Nat))
  | genderUnavailable (msg : String)
  | birthStats (oldest youngest common : Int)
  | birthUnavailable (msg : String)
deriving DecidableEq

/-- The observable outcome of `display_user_stats`: what was printed before
the function returned or raised, and the exception if one escaped. -/
structure UserOut where
  printed : List UserMsg
  err : Option String
deriving DecidableEq

/-- `display_user_stats` (bikeshare.py lines 184-214).  The `KeyError` of a
missing `Gender` or `Birth Year` column is caught and replaced by a message
naming the title-cased city.  When `Birth Year` is present but the frame is
empty, `df['Birth Year'].min()` is NaN and `int(NaN)` raises `ValueError`,
which the `except KeyError` clause does not catch: the error escapes after
the first two items were printed. -/
def display_user_stats (df : DataFrame) (city : String) : UserOut × DataFrame :=
  (let typesMsg := UserMsg.userTypeDist (valueCounts (df.rows.map (fun r => r.userType)))
   let genderMsg :=
     if df.hasGender then
       UserMsg.genderDist (valueCounts (df.rows.map (fun r => r.gender)))
     else
       UserMsg.genderUnavailable ("No gender data available for " ++ pyTitle city ++ ".")
   if df.hasBirthYear then
     let ys := df.rows.map (fun r => r.birthYear)
     match ys.min?, ys.max?, mode0 ys with
     | some oldest, some youngest, .ok common =>
       { printed := [typesMsg, genderMsg, .birthStats oldest youngest common],
         err := none }
     | _, _, _ =>
       { printed := [typesMsg, genderMsg], err := some ("ValueError") }
   else
     { printed := [typesMsg, genderMsg,
         .birthUnavailable ("No birth year data available for " ++ pyTitle city ++ ".")],
       err := none }, df)

/-- One page of `display_raw_data`: `df.iloc[c:c+5]` (bikeshare.py line 235). -/
def page (df : List Row) (c : Nat) : List Row := (df.drop c).take 5

/-- The `start_index >= len(df)` check made after the cursor was advanced by
5 (bikeshare.py lines 236-238): the "no more data" signal. -/
def noMoreAfter (df : List Row) (c : Nat) : Bool := decide (df.length ≤ c + 5)

/-- The view loop of `display_raw_data` (lines 234-243) when the user keeps
answering yes: from cursor `c`, print a page, advance by 5, and stop with
the "no more data" notice once the advanced cursor reaches the length.
The result is the list of printed pages. -/
def runViews (df : List Row) (c : Nat) : List (List Row) :=
  if df.length ≤ c + 5 then [page df c]
  else page df c :: runViews df (c + 5)
termination_by df.length - c
decreasing_by
  simp_wf
  omega

/-- The escaped exception of a statistics call, if any. -/
def exceptFails : Except String α → Option String
  | .error e => some e
  | .ok _ => none

/-- One dispatch of the menu loop of `main` (bikeshare.py lines 256-274):
the exception escaping the chosen statistics call, if any.  The raw-data
and restart branches involve further prompting and raise nothing
themselves. -/
def main_dispatch_once (df : DataFrame) (city : String) (sel : String) : Option String :=
  if sel = "ts" then exceptFails (display_time_stats df).1
  else if sel = "ss" then exceptFails (display_station_stats df).1
  else if sel = "tds" then none
  else if sel = "us" then (display_user_stats df city).1.err
  else none

/-! ### Helper lemmas: counting under filters and disjoint unions -/

theorem count_filter_ite {α : Type} [DecidableEq α] (q : α → Bool) (a : α) (l : List α) :
    (l.filter q).count a = if q a then l.count a else 0 := by
  by_cases h : q a
  · rw [if_pos h, List.count_filter h]
  · rw [if_neg h]
    refine List.count_eq_zero.mpr ?_
    intro hmem
    exact h (List.mem_filter.mp hmem).2

theorem sum_map_ite_unique {α : Type} [DecidableEq α] (vs : List α) (q : α → Bool) (c : Nat)
    (hnd : vs.Nodup) (hu : ∀ v ∈ vs, ∀ w ∈ vs, q v → q w → v = w) :
    (vs.map (fun v => if q v then c else 0)).sum = if vs.any q then c else 0 := by
  induction vs with
  | nil => simp
  | cons v t ih =>
    rw [List.nodup_cons] at hnd
    by_cases hq : q v
    · have ht : ∀ w ∈ t, q w = false := by
        intro w hw
        by_contra hne
        have hqw : q w := by simpa using hne
        have heq : v = w :=
          hu v (List.mem_cons_self v t) w (List.mem_cons_of_mem v hw) hq hqw
        exact hnd.1 (heq ▸ hw)
      have hsum : (t.map (fun v => if q v then c else 0)).sum = 0 := by
        have hmap : t.map (fun v => if q v then c else 0) = t.map (fun _ => 0) :=
          List.map_congr_left (fun w hw => by simp [ht w hw])
        rw [hmap]
        simp
      simp [hq, hsum]
    · have hq' : q v = false := by simpa using hq
      have ih' := ih hnd.2
        (fun a ha b hb => hu a (List.mem_cons_of_mem v ha) b (List.mem_cons_of_mem v hb))
      simp [hq', ih']

theorem flatten_filter_perm {α : Type} [DecidableEq α] (df : List α) (vs : List String)
    (p : String → α → Bool) (hnd : vs.Nodup)
    (hu : ∀ r : α, ∀ v ∈ vs, ∀ w ∈ vs, p v r → p w r → v = w) :
    ((vs.map (fun v => df.filter (p v))).flatten).Perm
      (df.filter (fun r => vs.any (fun v => p v r))) := by
  rw [List.perm_iff_count]
  intro a
  rw [List.count_flatten, List.map_map]
  have h1 : (vs.map (List.count a ∘ fun v => df.filter (p v)))
      = vs.map (fun v => if p v a then df.count a else 0) :=
    List.map_congr_left (fun v _ => count_filter_ite (p v) a df)
  rw [h1, sum_map_ite_unique vs (fun v => p v a) (df.count a) hnd
      (fun v hv w hw hqv hqw => hu a v hv w hw hqv hqw),
    count_filter_ite]

/-! ### Helper lemmas: the filter step of `load_data` -/

theorem filterBySel_perm (df : List Row) (p : String → Row → Bool) (canon : List String)
    (s : Selector) (hv : validSel canon s)
    (hinj : ∀ r : Row, ∀ v ∈ canon, ∀ w ∈ canon, p v r → p w r → v = w) :
    (filterBySel df p s).Perm (df.filter (selPred p s)) := by
  cases s with
  | one v => exact List.Perm.refl _
  | many vs =>
    obtain ⟨hne, hnd, hmem⟩ := hv
    exact flatten_filter_perm df vs p hnd
      (fun r v hvm w hwm => hinj r v (hmem v hvm) w (hmem w hwm))

theorem monthPred_inj :
    ∀ r : Row, ∀ v ∈ months, ∀ w ∈ months, monthPred v r → monthPred w r → v = w := by
  intro r v hv w hw h1 h2
  simp [monthPred] at h1 h2
  have h4 : months.indexOf v = months.indexOf w := by
    have h3 : monthNum v = monthNum w := by rw [← h1, h2]
    simpa [monthNum] using h3
  exact (List.indexOf_inj hv hw).mp h4

theorem pyTitle_inj_weekdays :
    ∀ v ∈ weekdays, ∀ w ∈ weekdays, pyTitle v = pyTitle w → v = w := by decide

theorem dayPred_inj :
    ∀ r : Row, ∀ v ∈ weekdays, ∀ w ∈ weekdays, dayPred v r → dayPred w r → v = w := by
  intro r v hv w hw h1 h2
  simp [dayPred] at h1 h2
  exact pyTitle_inj_weekdays v hv w hw (by rw [← h1, h2])

theorem filterData_perm (df : List Row) (msel dsel : Selector)
    (hm : validSel months msel) (hd : validSel weekdays dsel) :
    (filterData df msel dsel).Perm
      (df.filter (fun r => monthMatch msel r && dayMatch dsel r)) := by
  have hmon : (filterByMonth df msel).Perm (df.filter (monthMatch msel)) :=
    filterBySel_perm df monthPred months msel hm monthPred_inj
  have hday : (filterByDay (filterByMonth df msel) dsel).Perm
      ((filterByMonth df msel).filter (dayMatch dsel)) :=
    filterBySel_perm (filterByMonth df msel) dayPred weekdays dsel hd dayPred_inj
  have h2 := hday.trans (hmon.filter (dayMatch dsel))
  rw [List.filter_filter] at h2
  have h3 : df.filter (fun a => dayMatch dsel a && monthMatch msel a)
      = df.filter (fun r => monthMatch msel r && dayMatch dsel r) :=
    List.filter_congr (fun a _ => Bool.and_comm _ _)
  exact h2.trans (h3 ▸ List.Perm.refl _)

theorem month_coverage (n : Nat) (h1 : 1 ≤ n) (h2 : n ≤ 6) :
    (months.any (fun v => n == monthNum v)) = true := by
  interval_cases n <;> decide

theorem monthMatch_full (r : Row) (h1 : 1 ≤ r.month) (h2 : r.month ≤ 6) :
    monthMatch (.many months) r = true := by
  show (months.any (fun v => monthPred v r)) = true
  simp only [monthPred]
  exact month_coverage r.month h1 h2

theorem dayMatch_full (r : Row) (h3 : r.weekday ∈ weekdays.map pyTitle) :
    dayMatch (.many weekdays) r = true := by
  show (weekdays.any (fun v => dayPred v r)) = true
  rw [List.any_eq_true]
  obtain ⟨d, hd, hd2⟩ := List.mem_map.mp h3
  exact ⟨d, hd, by simp [dayPred, hd2]⟩

/-- C1: for selectors drawn from the canonical month and weekday sets
(single value, or a non-empty list of distinct values), the filter step of
`load_data` returns exactly the rows whose derived month number is
`index + 1` of some selected month and whose derived weekday equals the
title-cased form of some selected weekday — multi-valued selectors are
unions within a field (the result is a permutation of the conjunctive
filter) — and a selection matching no row yields the empty dataset rather
than an error. -/
theorem spec_C1 (df : List Row) (msel dsel : Selector)
    (hm : validSel months msel) (hd : validSel weekdays dsel) :
    (filterData df msel dsel).Perm
      (df.filter (fun r => monthMatch msel r && dayMatch dsel r))
    ∧ (df.filter (fun r => monthMatch msel r && dayMatch dsel r) = [] →
        filterData df msel dsel = []) := by
  have h := filterData_perm df msel dsel hm hd
  exact ⟨h, fun he => List.Perm.eq_nil (he ▸ h)⟩

theorem spec_C1_witness :
    (let df : List Row :=
      [⟨1, "Monday", 8, "a", "b", 100, "Subscriber", "Male", 1990⟩,
       ⟨3, "Monday", 9, "a", "b", 100, "Subscriber", "Male", 1990⟩,
       ⟨1, "Tuesday", 9, "a", "b", 100, "Subscriber", "Male", 1990⟩]
     let msel : Selector := .many ["january", "march"]
     let dsel : Selector := .one ("monday")
     validSel months msel ∧ validSel weekdays dsel ∧
       ((filterData df msel dsel).Perm
          (df.filter (fun r => monthMatch msel r && dayMatch dsel r))
        ∧ (df.filter (fun r => monthMatch msel r && dayMatch dsel r) = [] →
            filterData df msel dsel = []))) :=
  ⟨by decide, by decide, spec_C1 _ _ _ (by decide) (by decide)⟩

/-- C2: the filter step is a pure function of its arguments (two
applications to the same triple are equal), and filtering a dataset of
derived rows (month numbers in 1..6, weekday names among the title-cased
canonical weekdays) by the full month list and the full weekday list
returns a dataset with exactly the rows of the input, up to order. -/
theorem spec_C2 (df : List Row) (msel dsel : Selector)
    (hwf : ∀ r ∈ df, 1 ≤ r.month ∧ r.month ≤ 6 ∧ r.weekday ∈ weekdays.map pyTitle) :
    filterData df msel dsel = filterData df msel dsel
    ∧ (filterData df (.many months) (.many weekdays)).Perm df := by
  refine ⟨rfl, ?_⟩
  have hm : validSel months (.many months) := ⟨by decide, by decide, fun v hv => hv⟩
  have hd : validSel weekdays (.many weekdays) := ⟨by decide, by decide, fun v hv => hv⟩
  have h := filterData_perm df (.many months) (.many weekdays) hm hd
  have heq : df.filter
      (fun r => monthMatch (.many months) r && dayMatch (.many weekdays) r) = df := by
    rw [List.filter_eq_self]
    intro r hr
    obtain ⟨h1, h2, h3⟩ := hwf r hr
    simp [monthMatch_full r h1 h2, dayMatch_full r h3]
  rw [heq] at h
  exact h

theorem spec_C2_witness :
    (let df : List Row :=
      [⟨1, "Monday", 8, "a", "b", 100, "Subscriber", "Male", 1990⟩,
       ⟨6, "Saturday", 9, "a", "b", 100, "Customer", "Female", 1985⟩]
     let msel : Selector := .one ("january")
     let dsel : Selector := .one ("monday")
     (∀ r ∈ df, 1 ≤ r.month ∧ r.month ≤ 6 ∧ r.weekday ∈ weekdays.map pyTitle) ∧
       (filterData df msel dsel = filterData df msel dsel
        ∧ (filterData df (.many months) (.many weekdays)).Perm df)) :=
  ⟨by decide, spec_C2 _ _ _ (by decide)⟩

/-! ### Helper lemmas: the prompt loop -/

theorem run_skips_rejected (valid : List String) (pre rest : List String)
    (h : ∀ i ∈ pre, get_user_choice_step valid i = .reject) :
    get_user_choice_run valid (pre ++ rest) = get_user_choice_run valid rest := by
  induction pre with
  | nil => rfl
  | cons i t ih =>
    have hi := h i (List.mem_cons_self i t)
    simp only [List.cons_append, get_user_choice_run, hi]
    exact ih (fun j hj => h j (List.mem_cons_of_mem i hj))

theorem run_none_of_rejected (valid : List String) (pre : List String)
    (h : ∀ i ∈ pre, get_user_choice_step valid i = .reject) :
    get_user_choice_run valid pre = none := by
  induction pre with
  | nil => rfl
  | cons i t ih =>
    have hi := h i (List.mem_cons_self i t)
    simp only [get_user_choice_run, hi]
    exact ih (fun j hj => h j (List.mem_cons_of_mem i hj))

/-- C3: for every valid-choice set and input line, the prompt body first
lower-cases and trims the line; apart from the sentinel, a comma-free line
is accepted as itself exactly when it is a member of the valid set, a line
with a comma is split on commas with each token trimmed and lower-cased
and the token list is accepted exactly when every token is a member of the
valid set, and in all other cases the line is rejected; rejected lines
leave the retry loop running with no bound on the number of retries. -/
theorem spec_C3 (valid : List String) (raw : String) (pre : List String)
    (hpre : ∀ i ∈ pre, get_user_choice_step valid i = .reject)
    (hne : pyNorm raw ≠ "end") :
    ((pyNorm raw).data.contains ',' = false →
      ((get_user_choice_step valid raw = .accept (.one (pyNorm raw)) ↔ pyNorm raw ∈ valid)
       ∧ (get_user_choice_step valid raw = .reject ↔ pyNorm raw ∉ valid)))
    ∧ ((pyNorm raw).data.contains ',' = true →
      ((get_user_choice_step valid raw =
          .accept (.many ((pySplitComma (pyNorm raw)).map (fun i => pyLower (pyStrip i))))
        ↔ ∀ t ∈ (pySplitComma (pyNorm raw)).map (fun i => pyLower (pyStrip i)), t ∈ valid)
       ∧ (get_user_choice_step valid raw = .reject
          ↔ ¬ ∀ t ∈ (pySplitComma (pyNorm raw)).map (fun i => pyLower (pyStrip i)), t ∈ valid)))
    ∧ get_user_choice_run valid (pre ++ [raw]) = get_user_choice_run valid [raw]
    ∧ get_user_choice_run valid pre = none := by
  refine ⟨?_, ?_, run_skips_rejected valid pre [raw] hpre, run_none_of_rejected valid pre hpre⟩
  · intro hc
    simp only [get_user_choice_step]
    rw [if_neg hne, if_pos hc]
    by_cases hmem : pyNorm raw ∈ valid
    · simp [hmem]
    · simp [hmem]
  · intro hc
    simp only [get_user_choice_step]
    rw [if_neg hne, if_neg (by rw [hc]; simp)]
    by_cases hall : ∀ t ∈ (pySplitComma (pyNorm raw)).map (fun i => pyLower (pyStrip i)), t ∈ valid
    · simp [hall]
    · simp [hall]

theorem spec_C3_witness :
    (let valid : List String := ["chicago", "new york city", "washington"]
     let raw : String := " Chicago , Washington "
     let pre : List String := ["boston"]
     (∀ i ∈ pre, get_user_choice_step valid i = .reject) ∧ pyNorm raw ≠ "end" ∧
       (((pyNorm raw).data.contains ',' = false →
          ((get_user_choice_step valid raw = .accept (.one (pyNorm raw)) ↔ pyNorm raw ∈ valid)
           ∧ (get_user_choice_step valid raw = .reject ↔ pyNorm raw ∉ valid)))
        ∧ ((pyNorm raw).data.contains ',' = true →
          ((get_user_choice_step valid raw =
              .accept (.many ((pySplitComma (pyNorm raw)).map (fun i => pyLower (pyStrip i))))
            ↔ ∀ t ∈ (pySplitComma (pyNorm raw)).map (fun i => pyLower (pyStrip i)), t ∈ valid)
           ∧ (get_user_choice_step valid raw = .reject
              ↔ ¬ ∀ t ∈ (pySplitComma (pyNorm raw)).map (fun i => pyLower (pyStrip i)), t ∈ valid)))
        ∧ get_user_choice_run valid (pre ++ [raw]) = get_user_choice_run valid [raw]
        ∧ get_user_choice_run valid pre = none)) :=
  ⟨by decide, by decide, spec_C3 _ _ _ (by decide) (by decide)⟩

/-- C4: at every prompt (each `input` call of the program goes through
`get_user_choice`), a line that lower-cases and trims to the sentinel
`end` makes the prompt body exit immediately, for every valid-choice set
and whatever input would follow — no membership check intervenes. -/
theorem spec_C4 (valid : List String) (raw : String) (rest : List String)
    (h : pyNorm raw = "end") :
    get_user_choice_step valid raw = .exit
    ∧ get_user_choice_run valid (raw :: rest) = some .exit := by
  have h1 : get_user_choice_step valid raw = .exit := by
    simp only [get_user_choice_step]
    rw [if_pos h]
  exact ⟨h1, by simp [get_user_choice_run, h1]⟩

theorem spec_C4_witness :
    pyNorm (" END ") = "end"
    ∧ (get_user_choice_step ["y", "n"] (" END ") = .exit
       ∧ get_user_choice_run ["y", "n"] ([" END ", "y"]) = some .exit) :=
  ⟨by decide, spec_C4 _ _ _ (by decide)⟩

/-- C5 counterexample: the mean duration 125.5 seconds does not render as
the string `2m 5.5s` — the minutes part of `f-string {mean // 60}` is a
Python float and prints `2.0`, so the rendered string is `2.0m 5.5s`. -/
theorem spec_C5_cex :
    meanDurationStr (ratLit 251 2 (by decide) (by decide)) ≠ "2m 5.5s"
    ∧ meanDurationStr (ratLit 251 2 (by decide) (by decide)) = "2.0m 5.5s" := by
  exact ⟨by decide, by decide⟩

/-- C5 as amended: the total 90061 integer seconds renders as
`1d 1h 1m 1s` by integer floor division (also through the full
trip-duration statistics on a one-row frame), and the mean 125.5 seconds
is decomposed without prior rounding, its fractional seconds preserved,
rendering as `2.0m 5.5s` — with the floor-divided minutes still printed as
a float (`2.0`), not as the integer `2`. -/
theorem spec_C5_amended :
    totalDurationStr 90061 = "1d 1h 1m 1s"
    ∧ meanDurationStr (ratLit 251 2 (by decide) (by decide)) = "2.0m 5.5s"
    ∧ (display_trip_duration_stats
        ⟨[⟨1, "Monday", 8, "a", "b", 90061, "Subscriber", "Male", 1990⟩],
          true, true, none⟩).1.1 = "1d 1h 1m 1s" := by
  refine ⟨by decide, by decide, by decide⟩

/-! ### Helper lemmas: pagination -/

theorem runViews_flatten (df : List Row) : ∀ c, (runViews df c).flatten = df.drop c := by
  have H : ∀ k c, df.length - c ≤ k → (runViews df c).flatten = df.drop c := by
    intro k
    induction k with
    | zero =>
      intro c hc
      have hle : df.length ≤ c + 5 := by omega
      rw [runViews]
      simp only [if_pos hle, List.flatten, page]
      rw [List.append_nil, List.take_of_length_le]
      rw [List.length_drop]
      omega
    | succ k ih =>
      intro c hc
      by_cases hle : df.length ≤ c + 5
      · rw [runViews]
        simp only [if_pos hle, List.flatten, page]
        rw [List.append_nil, List.take_of_length_le]
        rw [List.length_drop]
        omega
      · rw [runViews]
        simp only [if_neg hle, List.flatten_cons]
        rw [ih (c + 5) (by omega)]
        have hdrop : df.drop (c + 5) = (df.drop c).drop 5 := by
          rw [List.drop_drop]
        rw [hdrop]
        simp only [page]
        exact List.take_append_drop 5 (df.drop c)
  exact fun c => H (df.length - c) c (le_refl _)

/-- C6: starting from cursor 0 and advancing in steps of 5, the raw-data
view loop displays every row exactly once (the concatenation of the pages
is the dataset itself, in order, each page at most 5 rows), the "no more
data" signal fires exactly when the advanced cursor reaches or exceeds the
dataset size, and on the empty dataset the very first view shows nothing
and signals immediately. -/
theorem spec_C6 (df : List Row) :
    (runViews df 0).flatten = df
    ∧ runViews ([] : List Row) 0 = [[]]
    ∧ (∀ c, noMoreAfter df c = decide (df.length ≤ c + 5))
    ∧ (∀ c, (page df c).length ≤ 5) := by
  refine ⟨by simpa using runViews_flatten df 0, ?_, fun c => rfl, fun c => ?_⟩
  · rw [runViews]
    simp [page]
  · simp only [page]
    rw [List.length_take]
    omega

/-! ### Helper lemmas: the mode of a column -/

theorem modeCandidates_ne_nil {α : Type} [DecidableEq α] (xs : List α) (h : xs ≠ []) :
    modeCandidates xs ≠ [] := by
  cases harg : xs.argmax (fun v => xs.count v) with
  | none => exact absurd (List.argmax_eq_none.mp harg) h
  | some m =>
    have hm : m ∈ xs := List.argmax_mem harg
    have hmem : m ∈ modeCandidates xs := by
      simp only [modeCandidates, harg]
      exact List.mem_filter.mpr ⟨List.mem_dedup.mpr hm, by simp⟩
    exact List.ne_nil_of_mem hmem

theorem mode0_ok {α : Type} [DecidableEq α] (xs : List α) (h : xs ≠ []) :
    ∃ a, mode0 xs = .ok a := by
  have h2 := modeCandidates_ne_nil xs h
  cases hc : modeCandidates xs with
  | nil => exact absurd hc h2
  | cons a t => exact ⟨a, by simp [mode0, hc]⟩

theorem mode0_nil {α : Type} [DecidableEq α] :
    mode0 ([] : List α) = .error ("IndexError") := rfl

/-- C7 counterexample: a dataset that lacks the `Gender` column but has a
`Birth Year` column and no rows makes `display_user_stats` raise — the
gender unavailability message (naming the city) is printed, but
`int(df['Birth Year'].min())` is `int(NaN)` on the empty column and its
`ValueError` is not caught by the `except KeyError` clause — so the claim
that the operation never raises on a dataset lacking `Gender` fails. -/
theorem spec_C7_cex :
    (display_user_stats ⟨[], false, true, none⟩ ("chicago")).1.err = some ("ValueError")
    ∧ UserMsg.genderUnavailable ("No gender data available for Chicago.")
        ∈ (display_user_stats ⟨[], false, true, none⟩ ("chicago")).1.printed := by
  exact ⟨by decide, by decide⟩

/-- C7 as amended: on a dataset lacking the `Gender` column the user
statistics report gender data as unavailable in a message naming the
(title-cased) selected city, on a dataset lacking the `Birth Year` column
likewise for birth years, and the user-type distribution is reported in
both cases; no error is raised, provided the dataset is non-empty or lacks
the `Birth Year` column as well (on an empty dataset with a `Birth Year`
column, `int` of the undefined column minimum raises, a failure mode
independent of the missing-column handling). -/
theorem spec_C7_amended (df : DataFrame) (city : String)
    (h : df.rows ≠ [] ∨ df.hasBirthYear = false) :
    (display_user_stats df city).1.err = none
    ∧ (df.hasGender = false →
        UserMsg.genderUnavailable ("No gender data available for " ++ pyTitle city ++ ".")
          ∈ (display_user_stats df city).1.printed)
    ∧ (df.hasBirthYear = false →
        UserMsg.birthUnavailable ("No birth year data available for " ++ pyTitle city ++ ".")
          ∈ (display_user_stats df city).1.printed)
    ∧ UserMsg.userTypeDist (valueCounts (df.rows.map (fun r => r.userType)))
        ∈ (display_user_stats df city).1.printed := by
  cases hb : df.hasBirthYear with
  | false =>
    refine ⟨by simp [display_user_stats, hb], ?_, ?_, ?_⟩
    · intro hg
      simp [display_user_stats, hb, hg]
    · intro _
      simp [display_user_stats, hb]
    · simp [display_user_stats, hb]
  | true =>
    have hrows : df.rows ≠ [] := by
      rcases h with h1 | h2
      · exact h1
      · rw [hb] at h2
        cases h2
    cases hr : df.rows with
    | nil => exact absurd hr hrows
    | cons r t =>
      obtain ⟨cm, hcm⟩ := mode0_ok (r.birthYear :: t.map (fun x => x.birthYear)) (by simp)
      refine ⟨?_, ?_, ?_, ?_⟩
      · simp [display_user_stats, hb, hr, List.min?_cons', List.max?_cons', hcm]
      · intro hg
        simp [display_user_stats, hb, hr, hg, List.min?_cons', List.max?_cons', hcm]
      · intro hbf
        simp at hbf
      · simp [display_user_stats, hb, hr, List.min?_cons', List.max?_cons', hcm]

theorem spec_C7_witness :
    ((DataFrame.mk [] false false none).rows ≠ [] ∨ (DataFrame.mk [] false false none).hasBirthYear = false)
    ∧ ((display_user_stats (DataFrame.mk [] false false none) ("washington")).1.err = none
       ∧ ((DataFrame.mk [] false false none).hasGender = false →
           UserMsg.genderUnavailable ("No gender data available for Washington.")
             ∈ (display_user_stats (DataFrame.mk [] false false none) ("washington")).1.printed)
       ∧ ((DataFrame.mk [] false false none).hasBirthYear = false →
           UserMsg.birthUnavailable ("No birth year data available for Washington.")
             ∈ (display_user_stats (DataFrame.mk [] false false none) ("washington")).1.printed)
       ∧ UserMsg.userTypeDist (valueCounts ((DataFrame.mk [] false false none).rows.map (fun r => r.userType)))
           ∈ (display_user_stats (DataFrame.mk [] false false none) ("washington")).1.printed) :=
  ⟨Or.inr rfl, by
    have h := spec_C7_amended (DataFrame.mk [] false false none) ("washington") (Or.inr rfl)
    simpa [pyTitle] using h⟩

/-! ### Helper lemmas: the read step of `load_data` -/

theorem city_path_cases (c : String) :
    (∃ p, city_path c = .ok p) ∨ city_path c = .error ("SourceNotFoundError") := by
  unfold city_path
  cases CITY_DATA.lookup c <;> simp

theorem read_csv_cases (fs : String → Option (List Row)) (p : String) :
    (∃ rows, read_csv fs p = .ok rows) ∨ read_csv fs p = .error ("SourceNotFoundError") := by
  unfold read_csv
  cases fs p <;> simp

theorem load_city_rows_cases (fs : String → Option (List Row)) (cs : List String) :
    (∃ rows, load_city_rows fs cs = .ok rows)
    ∨ load_city_rows fs cs = .error ("SourceNotFoundError") := by
  induction cs with
  | nil => exact .inl ⟨[], rfl⟩
  | cons c t ih =>
    rcases city_path_cases c with ⟨p, hp⟩ | hp
    · rcases read_csv_cases fs p with ⟨rows, hrd⟩ | hrd
      · rcases ih with ⟨others, ho⟩ | ho
        · exact .inl ⟨rows ++ others, by simp [load_city_rows, hp, hrd, ho]⟩
        · exact .inr (by simp [load_city_rows, hp, hrd, ho])
      · exact .inr (by simp [load_city_rows, hp, hrd])
    · exact .inr (by simp [load_city_rows, hp])

theorem load_city_rows_ok_mem (fs : String → Option (List Row)) (cs : List String)
    (rows : List Row) (h : load_city_rows fs cs = .ok rows) :
    ∀ c ∈ cs, ∃ p r, city_path c = .ok p ∧ fs p = some r := by
  induction cs generalizing rows with
  | nil =>
    intro c hc
    exact absurd hc (List.not_mem_nil c)
  | cons c0 t ih =>
    intro c hc
    rcases city_path_cases c0 with ⟨p, hp⟩ | hp
    · cases hfs : fs p with
      | none =>
        rw [load_city_rows, hp] at h
        simp [read_csv, hfs] at h
      | some r0 =>
        have hread : read_csv fs p = .ok r0 := by simp [read_csv, hfs]
        cases ht : load_city_rows fs t with
        | error e =>
          rw [load_city_rows, hp] at h
          simp [hread, ht] at h
        | ok others =>
          rcases List.mem_cons.mp hc with rfl | hct
          · exact ⟨p, r0, hp, hfs⟩
          · exact ih others ht c hct
    · rw [load_city_rows, hp] at h
      simp at h

/-- C8: for a city identifier that is not a key of `CITY_DATA`, or whose
mapped path the file system cannot read, the read step of `load_data`
fails with the source-not-found error (Python: an uncaught `KeyError` or
`FileNotFoundError`) — both for a single-city load and for any multi-city
load containing that identifier — and never returns a dataset, so no
empty or partial dataset is silently produced. -/
theorem spec_C8 (fs : String → Option (List Row)) (city : String) (cs : List String)
    (hbad : CITY_DATA.lookup city = none
      ∨ ∃ p, CITY_DATA.lookup city = some p ∧ fs p = none)
    (hmem : city ∈ cs) :
    load_rows fs (.one city) = .error ("SourceNotFoundError")
    ∧ (∀ rows, load_rows fs (.one city) ≠ .ok rows)
    ∧ load_rows fs (.many cs) = .error ("SourceNotFoundError")
    ∧ (∀ rows, load_rows fs (.many cs) ≠ .ok rows) := by
  have hone : load_rows fs (.one city) = .error ("SourceNotFoundError") := by
    rcases hbad with hnone | ⟨p, hp, hfs⟩
    · simp [load_rows, city_path, hnone]
    · simp [load_rows, city_path, hp, read_csv, hfs]
  have hfail : ¬ ∃ p r, city_path city = .ok p ∧ fs p = some r := by
    rintro ⟨p, r, hp, hr⟩
    rcases hbad with hnone | ⟨p2, hp2, hfs2⟩
    · simp [city_path, hnone] at hp
    · simp [city_path, hp2] at hp
      rw [← hp] at hr
      rw [hfs2] at hr
      cases hr
  have hmany : load_rows fs (.many cs) = .error ("SourceNotFoundError") := by
    rcases load_city_rows_cases fs cs with ⟨rows, hok⟩ | herr
    · exact absurd (load_city_rows_ok_mem fs cs rows hok city hmem) hfail
    · simpa [load_rows] using herr
  refine ⟨hone, fun rows hcontra => ?_, hmany, fun rows hcontra => ?_⟩
  · rw [hone] at hcontra
    cases hcontra
  · rw [hmany] at hcontra
    cases hcontra

theorem spec_C8_witness :
    (CITY_DATA.lookup ("chicago") = none
      ∨ ∃ p, CITY_DATA.lookup ("chicago") = some p ∧ (fun _ : String => (none : Option (List Row))) p = none)
    ∧ ("chicago" ∈ ["chicago", "washington"])
    ∧ (load_rows (fun _ => none) (.one ("chicago")) = .error ("SourceNotFoundError")
       ∧ (∀ rows, load_rows (fun _ => none) (.one ("chicago")) ≠ .ok rows)
       ∧ load_rows (fun _ => none) (.many ["chicago", "washington"]) = .error ("SourceNotFoundError")
       ∧ (∀ rows, load_rows (fun _ => none) (.many ["chicago", "washington"]) ≠ .ok rows)) :=
  ⟨Or.inr ⟨"chicago.csv", rfl, rfl⟩, by decide,
    spec_C8 (fun _ => none) ("chicago") (["chicago", "washington"])
      (Or.inr ⟨"chicago.csv", rfl, rfl⟩) (by decide)⟩

/-- C9: within one load cycle the statistics operations leave the working
dataset's rows and existing columns unchanged; the only mutation is the
station statistics adding the derived `Start-End Combination` column,
whose value per row is the start station name joined to the end station
name by the ` - ` separator, and repeating the station statistics does not
change the dataset further. -/
theorem spec_C9 (df : DataFrame) (city : String) :
    (display_time_stats df).2 = df
    ∧ (display_trip_duration_stats df).2 = df
    ∧ (display_user_stats df city).2 = df
    ∧ (display_station_stats df).2.rows = df.rows
    ∧ (display_station_stats df).2.hasGender = df.hasGender
    ∧ (display_station_stats df).2.hasBirthYear = df.hasBirthYear
    ∧ ((display_station_stats df).2.startEndCombo = df.startEndCombo
       ∨ (display_station_stats df).2.startEndCombo = some (comboColumn df.rows))
    ∧ (display_station_stats ((display_station_stats df).2)).2 = (display_station_stats df).2 := by
  refine ⟨rfl, rfl, rfl, ?_⟩
  cases hr : df.rows with
  | nil =>
    have h0 : display_station_stats df = (.error ("IndexError"), df) := by
      simp [display_station_stats, hr, mode0_nil]
    rw [h0]
    exact ⟨hr, rfl, rfl, Or.inl rfl, by rw [h0]⟩
  | cons r t =>
    obtain ⟨s1, h1⟩ := mode0_ok (r.startStation :: t.map (fun x => x.startStation)) (by simp)
    obtain ⟨s2, h2⟩ := mode0_ok (r.endStation :: t.map (fun x => x.endStation)) (by simp)
    obtain ⟨c3, h3⟩ := mode0_ok (comboColumn (r :: t)) (by simp [comboColumn])
    have hst : display_station_stats df =
        (.ok (s1, s2, c3), { df with startEndCombo := some (comboColumn (r :: t)) }) := by
      simp [display_station_stats, hr, h1, h2, h3]
    have hst2 : display_station_stats { df with startEndCombo := some (comboColumn (r :: t)) } =
        (.ok (s1, s2, c3), { df with startEndCombo := some (comboColumn (r :: t)) }) := by
      simp [display_station_stats, hr, h1, h2, h3]
    rw [hst]
    refine ⟨hr, rfl, rfl, ?_, ?_⟩
    · right
      rw [hr]
    · rw [hst2]

/-- C10: on the empty working dataset — a legitimate filter result — the
time statistics and the station statistics raise an uncaught `IndexError`,
because each takes element 0 of the mode of a column and the mode of an
empty column is empty; the error branch is reachable from the menu
dispatch of `main` (selections `ts` and `ss`). -/
theorem spec_C10 (df : DataFrame) (city : String) (h : df.rows = []) :
    (display_time_stats df).1 = .error ("IndexError")
    ∧ (display_station_stats df).1 = .error ("IndexError")
    ∧ main_dispatch_once df city ("ts") = some ("IndexError")
    ∧ main_dispatch_once df city ("ss") = some ("IndexError") := by
  have ht : (display_time_stats df).1 = .error ("IndexError") := by
    simp [display_time_stats, h, mode0_nil]
  have hs : (display_station_stats df).1 = .error ("IndexError") := by
    simp [display_station_stats, h, mode0_nil]
  refine ⟨ht, hs, ?_, ?_⟩
  · simp [main_dispatch_once, exceptFails, ht]
  · simp [main_dispatch_once, exceptFails, hs]

theorem spec_C10_witness :
    (DataFrame.mk [] true true none).rows = []
    ∧ ((display_time_stats (DataFrame.mk [] true true none)).1 = .error ("IndexError")
       ∧ (display_station_stats (DataFrame.mk [] true true none)).1 = .error ("IndexError")
       ∧ main_dispatch_once (DataFrame.mk [] true true none) ("chicago") ("ts") = some ("IndexError")
       ∧ main_dispatch_once (DataFrame.mk [] true true none) ("chicago") ("ss") = some ("IndexError")) :=
  ⟨rfl, spec_C10 (DataFrame.mk [] true true none) ("chicago") rfl⟩
